import Mathlib

/-!
Verification of the metric-dispatch engine of `os2cw` (src/cmd/send.go).

The program is a CLI agent that samples OS metrics and sends them to
CloudWatch.  This file shallowly embeds the `send` command: the static
unit table (`storageUnits`), the metric registry (`metricSpecs`), system
id resolution (`generateID`), session configuration (`configureSession`)
and the dispatch loop of `send`, which deduplicates the requested metric
list, validates units, runs each handler and computes the process exit
code.

External collaborators (the EC2 metadata service, the OS hostname call
and the per-metric handler results) are opaque in the source file, so
they are parameters of the embedding, gathered in `Env`.  The `send`
function additionally records a trace of the stages it passes through,
so that ordering claims can be stated.
-/

namespace Os2cw

/-- Embeds the Go struct `metricUnit` (fields `Name`, `Multiplier`). -/
structure MetricUnit where
  Name : String
  Multiplier : Nat
  deriving DecidableEq, Repr

/-- Embeds the static map `storageUnits` built in `init` (send.go:88-93):
unit token to name and byte multiplier.  A Go map lookup is keyed on
string equality, embedded as an if-chain in insertion order. -/
def storageUnits (t : String) : Option MetricUnit :=
  if t = "b" then some ⟨"Bytes", 1⟩
  else if t = "kb" then some ⟨"Kilobytes", 1024⟩
  else if t = "mb" then some ⟨"Megabytes", 1024 * 1024⟩
  else if t = "gb" then some ⟨"Gigabytes", 1024 * 1024 * 1024⟩
  else if t = "tb" then some ⟨"Terabytes", 1024 * 1024 * 1024 * 1024⟩
  else none

/-- The handler functions referenced by the registry (send.go:61-84).
Their bodies live outside src/cmd/send.go; here they are opaque tags,
and the result of running a handler is supplied by `Env.runResult`. -/
inductive Handler where
  | memAvail | memFree | memTotal | memUsed | memUtil
  | volumeAvailable | volumeFree | volumeTotal | volumeUsed | volumeUtil
  | uptime | procs
  deriving DecidableEq, Repr

/-- Embeds the Go struct `metricSpec` (fields `Name`, `handler`). -/
structure MetricSpec where
  Name : String
  handler : Handler
  deriving DecidableEq, Repr

/-- Embeds the static map `metricSpecs` built in `init` (send.go:60-84):
metric id to display name and handler. -/
def metricSpecs (id : String) : Option MetricSpec :=
  if id = "mem-avail" then some ⟨"MemoryFreePercentage", Handler.memAvail⟩
  else if id = "mem-free" then some ⟨"MemoryFree", Handler.memFree⟩
  else if id = "mem-total" then some ⟨"MemoryTotal", Handler.memTotal⟩
  else if id = "mem-used" then some ⟨"MemoryUsed", Handler.memUsed⟩
  else if id = "mem-util" then some ⟨"MemoryUsedPercentage", Handler.memUtil⟩
  else if id = "vol-avail" then some ⟨"VolumeFreePercentage", Handler.volumeAvailable⟩
  else if id = "vol-free" then some ⟨"VolumeFree", Handler.volumeFree⟩
  else if id = "vol-total" then some ⟨"VolumeTotal", Handler.volumeTotal⟩
  else if id = "vol-used" then some ⟨"VolumeUsed", Handler.volumeUsed⟩
  else if id = "vol-util" then some ⟨"VolumeUsedPercentage", Handler.volumeUtil⟩
  else if id = "uptime" then some ⟨"Uptime", Handler.uptime⟩
  else if id = "procs" then some ⟨"Processes", Handler.procs⟩
  else none

/-- The metric ids whose handlers report a size in the configured unit
(the mem-* and vol-* families, send.go:61-80). -/
def sizeMetricIds : List String :=
  ["mem-avail", "mem-free", "mem-total", "mem-used", "mem-util",
   "vol-avail", "vol-free", "vol-total", "vol-used", "vol-util"]

/-- The mutable AWS session (`sess`): the fields `configureSession`
touches, `Config.Region` (a string pointer, `none` when unset) and
`Config.Credentials` (static credentials: access key, secret key,
token). -/
structure SessionConfig where
  region : Option String
  credentials : Option (String × String × String)
  deriving DecidableEq, Repr

/-- The configuration values `send` reads through viper after the
defaults / config file / CLI flag merge. -/
structure ViperConfig where
  metrics : List String
  volumeUnit : String
  memoryUnit : String
  region : String
  accessKey : String
  secretKey : String
  deriving DecidableEq, Repr

/-- The opaque external collaborators of send.go: the EC2 metadata
instance-id call (`none` = error), the OS hostname call (`none` =
error), and the outcome of `metricSpec.Run` for each metric id
(`none` = success, `some e` = handler error `e`). -/
structure Env where
  instanceMetadata : Option String
  hostname : Option String
  runResult : String → Option String

/-- Embeds `generateID` (send.go:188-199): try the EC2 metadata
instance id, then the local hostname, else return the empty string. -/
def generateID (env : Env) : String :=
  match env.instanceMetadata with
  | some instanceid => instanceid
  | none =>
    match env.hostname with
    | some h => h
    | none => ""

/-- System id resolution at the top of `send` (send.go:126-128): the
`--id` flag value if non-empty, else `generateID`. -/
def resolveSystemID (flagID : String) (env : Env) : String :=
  if flagID = "" then generateID env else flagID

/-- Embeds `configureSession` (send.go:207-219): overwrite the session
region when a region is configured, and install static credentials when
an access key is configured. -/
def configureSession (v : ViperConfig) (s : SessionConfig) : SessionConfig :=
  let s1 := if v.region ≠ "" then { s with region := some v.region } else s
  if v.accessKey ≠ "" then
    { s1 with credentials := some (v.accessKey, v.secretKey, "") }
  else s1

/-- The requested metric list (send.go:139-144): positional CLI
arguments when present, else the configured `metrics` list. -/
def resolveMetrics (v : ViperConfig) (args : List String) : List String :=
  if args.length > 0 then args else v.metrics

/-- Observable events of one `send` run: the stage gates the control
flow passes, plus one event per metric reaching the dispatch loop.
`execHandler` records the session state the handler observes. -/
inductive Event where
  | validateIdentity
  | configureSessionEv (s : SessionConfig)
  | resolveMetricsEv
  | validateUnitsEv
  | dedupeEv
  | execHandler (id : String) (s : SessionConfig)
  | invalidMetric (id : String)
  | computeExit
  deriving DecidableEq, Repr

/-- Stage position of an event in the run (handler execution and
invalid-metric reporting both belong to the execute-each stage). -/
def stageNum : Event → Nat
  | Event.validateIdentity => 0
  | Event.configureSessionEv _ => 1
  | Event.resolveMetricsEv => 2
  | Event.validateUnitsEv => 3
  | Event.dedupeEv => 4
  | Event.execHandler _ _ => 5
  | Event.invalidMetric _ => 5
  | Event.computeExit => 6

/-- Whether an event is a handler invocation. -/
def isExecEvent : Event → Bool
  | Event.execHandler _ _ => true
  | _ => false

/-- One iteration of the dispatch loop (send.go:173-185): an unknown id
prints an error and continues without touching `code`; a known id runs
its handler, and a handler error sets `code` to 1. -/
def dispatchStep (env : Env) (s : SessionConfig)
    (acc : Nat × List Event) (m : String) : Nat × List Event :=
  match metricSpecs m with
  | none => (acc.1, acc.2 ++ [Event.invalidMetric m])
  | some _ =>
    match env.runResult m with
    | none => (acc.1, acc.2 ++ [Event.execHandler m s])
    | some _ => (1, acc.2 ++ [Event.execHandler m s])

/-- The event the dispatch loop emits for metric `m`. -/
def evFor (s : SessionConfig) (m : String) : Event :=
  if (metricSpecs m).isSome then Event.execHandler m s else Event.invalidMetric m

/-- Result of one run: the process exit code and the event trace. -/
structure RunOutcome where
  exitCode : Nat
  trace : List Event
  deriving DecidableEq, Repr

/-- Embeds `send` (send.go:120-186).  `code` starts at 0 and the
deferred `os.Exit(code)` returns its final value.  Gates in source
order: empty system id; empty metric list; unknown volume unit; unknown
memory unit.  The requested list is deduplicated via a map (set
semantics; the embedding iterates in first-occurrence order, one
admissible order of Go's unspecified map iteration) and each distinct
id is dispatched by `dispatchStep`. -/
def send (v : ViperConfig) (flagID : String) (args : List String)
    (env : Env) (s0 : SessionConfig) : RunOutcome :=
  if resolveSystemID flagID env = "" then
    ⟨1, [Event.validateIdentity]⟩
  else
    let s := configureSession v s0
    let metrics := resolveMetrics v args
    if metrics.length = 0 then
      ⟨1, [Event.validateIdentity, Event.configureSessionEv s,
           Event.resolveMetricsEv]⟩
    else if storageUnits v.volumeUnit = none then
      ⟨1, [Event.validateIdentity, Event.configureSessionEv s,
           Event.resolveMetricsEv, Event.validateUnitsEv]⟩
    else if storageUnits v.memoryUnit = none then
      ⟨1, [Event.validateIdentity, Event.configureSessionEv s,
           Event.resolveMetricsEv, Event.validateUnitsEv]⟩
    else
      let r := metrics.dedup.foldl (dispatchStep env s)
        (0, [Event.validateIdentity, Event.configureSessionEv s,
             Event.resolveMetricsEv, Event.validateUnitsEv, Event.dedupeEv])
      ⟨r.1, r.2 ++ [Event.computeExit]⟩

/-! ### Helper lemmas about the dispatch loop and the run shapes -/

/-- A distinct metric id is "bad" when it is in the registry and its
handler errors: exactly the condition under which the loop sets
`code = 1`. -/
def badMetric (env : Env) (m : String) : Bool :=
  (metricSpecs m).isSome && (env.runResult m).isSome

theorem dispatchStep_eq (env : Env) (s : SessionConfig) (c : Nat)
    (tr : List Event) (m : String) :
    dispatchStep env s (c, tr) m =
      (if badMetric env m then 1 else c, tr ++ [evFor s m]) := by
  unfold dispatchStep badMetric evFor
  cases hm : metricSpecs m with
  | none => simp [hm]
  | some sp =>
    cases hr : env.runResult m with
    | none => simp [hm, hr]
    | some e => simp [hm, hr]

theorem dispatch_foldl_spec (env : Env) (s : SessionConfig) :
    ∀ (l : List String) (c : Nat) (tr : List Event),
      l.foldl (dispatchStep env s) (c, tr) =
        (if l.any (badMetric env) then 1 else c, tr ++ l.map (evFor s)) := by
  intro l
  induction l with
  | nil => intro c tr; simp
  | cons m rest ih =>
    intro c tr
    simp only [List.foldl_cons, List.any_cons, List.map_cons]
    rw [dispatchStep_eq, ih]
    by_cases hb : badMetric env m
    · simp [hb]
    · simp [hb]

theorem send_shape_id (v : ViperConfig) (flagID : String) (args : List String)
    (env : Env) (s0 : SessionConfig)
    (hid : resolveSystemID flagID env = "") :
    send v flagID args env s0 = ⟨1, [Event.validateIdentity]⟩ := by
  unfold send
  simp [hid]

theorem send_shape_noMetrics (v : ViperConfig) (flagID : String)
    (args : List String) (env : Env) (s0 : SessionConfig)
    (hid : resolveSystemID flagID env ≠ "")
    (hm : resolveMetrics v args = []) :
    send v flagID args env s0 =
      ⟨1, [Event.validateIdentity,
           Event.configureSessionEv (configureSession v s0),
           Event.resolveMetricsEv]⟩ := by
  unfold send
  simp [hid, hm]

theorem send_shape_badUnit (v : ViperConfig) (flagID : String)
    (args : List String) (env : Env) (s0 : SessionConfig)
    (hid : resolveSystemID flagID env ≠ "")
    (hm : resolveMetrics v args ≠ [])
    (hu : storageUnits v.volumeUnit = none ∨ storageUnits v.memoryUnit = none) :
    send v flagID args env s0 =
      ⟨1, [Event.validateIdentity,
           Event.configureSessionEv (configureSession v s0),
           Event.resolveMetricsEv, Event.validateUnitsEv]⟩ := by
  unfold send
  rcases hu with hu | hu
  · simp [hid, hu, List.length_eq_zero, hm]
  · by_cases hv : storageUnits v.volumeUnit = none
    · simp [hid, hv, List.length_eq_zero, hm]
    · simp [hid, hv, hu, List.length_eq_zero, hm]

theorem send_shape_run (v : ViperConfig) (flagID : String) (args : List String)
    (env : Env) (s0 : SessionConfig)
    (hid : resolveSystemID flagID env ≠ "")
    (hm : resolveMetrics v args ≠ [])
    (hv : storageUnits v.volumeUnit ≠ none)
    (hmu : storageUnits v.memoryUnit ≠ none) :
    send v flagID args env s0 =
      ⟨if (resolveMetrics v args).dedup.any (badMetric env) then 1 else 0,
       [Event.validateIdentity,
        Event.configureSessionEv (configureSession v s0),
        Event.resolveMetricsEv, Event.validateUnitsEv, Event.dedupeEv]
         ++ (resolveMetrics v args).dedup.map (evFor (configureSession v s0))
         ++ [Event.computeExit]⟩ := by
  unfold send
  simp [hid, hm, hv, hmu, List.length_eq_zero, dispatch_foldl_spec]

theorem send_run_trace (v : ViperConfig) (flagID : String) (args : List String)
    (env : Env) (s0 : SessionConfig)
    (hid : resolveSystemID flagID env ≠ "")
    (hm : resolveMetrics v args ≠ [])
    (hv : storageUnits v.volumeUnit ≠ none)
    (hmu : storageUnits v.memoryUnit ≠ none) :
    (send v flagID args env s0).trace =
      [Event.validateIdentity,
       Event.configureSessionEv (configureSession v s0),
       Event.resolveMetricsEv, Event.validateUnitsEv, Event.dedupeEv]
        ++ (resolveMetrics v args).dedup.map (evFor (configureSession v s0))
        ++ [Event.computeExit] := by
  rw [send_shape_run v flagID args env s0 hid hm hv hmu]

theorem send_run_code (v : ViperConfig) (flagID : String) (args : List String)
    (env : Env) (s0 : SessionConfig)
    (hid : resolveSystemID flagID env ≠ "")
    (hm : resolveMetrics v args ≠ [])
    (hv : storageUnits v.volumeUnit ≠ none)
    (hmu : storageUnits v.memoryUnit ≠ none) :
    (send v flagID args env s0).exitCode =
      if (resolveMetrics v args).dedup.any (badMetric env) then 1 else 0 := by
  rw [send_shape_run v flagID args env s0 hid hm hv hmu]

/-- Shared core of the invalid-unit claims: an unknown volume or memory
unit token always yields exit code 1 and an empty set of handler
invocations, whichever earlier gate may also have tripped. -/
theorem send_unit_invalid_core (v : ViperConfig) (flagID : String)
    (args : List String) (env : Env) (s0 : SessionConfig)
    (hu : storageUnits v.volumeUnit = none ∨ storageUnits v.memoryUnit = none) :
    (send v flagID args env s0).exitCode = 1 ∧
    (send v flagID args env s0).trace.filter isExecEvent = [] := by
  by_cases hid : resolveSystemID flagID env = ""
  · rw [send_shape_id v flagID args env s0 hid]
    exact ⟨rfl, rfl⟩
  · by_cases hm : resolveMetrics v args = []
    · rw [send_shape_noMetrics v flagID args env s0 hid hm]
      exact ⟨rfl, rfl⟩
    · rw [send_shape_badUnit v flagID args env s0 hid hm hu]
      exact ⟨rfl, rfl⟩

/-! ### Concrete fixtures used by witnesses and counterexamples -/

/-- Environment where the metadata service and the hostname call both
fail and every handler succeeds. -/
def envNoCloud : Env := ⟨none, none, fun _ => none⟩

/-- Environment where the metadata service answers and every handler
succeeds. -/
def envMeta : Env := ⟨some "i-0abc", some "myhost", fun _ => none⟩

/-- Environment where only the hostname call answers. -/
def envHost : Env := ⟨none, some "myhost", fun _ => none⟩

/-- Environment where the uptime handler fails and all others
succeed. -/
def envFailUptime : Env :=
  ⟨none, some "myhost", fun m => if m = "uptime" then some "boom" else none⟩

/-- A fresh session, as returned by `session.NewSession()`. -/
def sessNew : SessionConfig := ⟨none, none⟩

/-- Configuration with the compiled-in defaults (send.go:53-57) and no
region or credentials. -/
def cfgDefault : ViperConfig := ⟨[], "mb", "kb", "", "", ""⟩

/-- Default configuration with the invalid volume unit token "xx". -/
def cfgBadVol : ViperConfig := ⟨[], "xx", "kb", "", "", ""⟩

/-- Default configuration whose configured metric list is ["uptime"]. -/
def cfgUptime : ViperConfig := ⟨["uptime"], "mb", "kb", "", "", ""⟩

/-! ### Claim theorems -/

/-- C2: for every token in {b, kb, mb, gb, tb}, unit-table lookup
succeeds with multiplier 1, 1024, 1024^2, 1024^3, 1024^4 respectively,
and lookup of any token outside that set reports not-found. -/
theorem storageUnits_lookup_correct :
    storageUnits "b" = some ⟨"Bytes", 1⟩ ∧
    storageUnits "kb" = some ⟨"Kilobytes", 1024⟩ ∧
    storageUnits "mb" = some ⟨"Megabytes", 1024 * 1024⟩ ∧
    storageUnits "gb" = some ⟨"Gigabytes", 1024 * 1024 * 1024⟩ ∧
    storageUnits "tb" = some ⟨"Terabytes", 1024 * 1024 * 1024 * 1024⟩ ∧
    ∀ t, t ∉ ["b", "kb", "mb", "gb", "tb"] → storageUnits t = none := by
  refine ⟨rfl, rfl, rfl, rfl, rfl, ?_⟩
  intro t ht
  unfold storageUnits
  split_ifs with h1 h2 h3 h4 h5
  · subst h1; simp at ht
  · subst h2; simp at ht
  · subst h3; simp at ht
  · subst h4; simp at ht
  · subst h5; simp at ht
  · rfl

/-- Witness for C2 at the concrete unknown token "xx". -/
theorem storageUnits_lookup_correct_witness :
    "xx" ∉ ["b", "kb", "mb", "gb", "tb"] ∧ storageUnits "xx" = none :=
  ⟨by decide, storageUnits_lookup_correct.2.2.2.2.2 "xx" (by decide)⟩

/-- C3: whenever the configured volumeUnit or memoryUnit is not a key
of the unit table, the run terminates with exit code 1 and zero
metric-handler invocations. -/
theorem invalid_unit_gate (v : ViperConfig) (flagID : String)
    (args : List String) (env : Env) (s0 : SessionConfig)
    (hu : storageUnits v.volumeUnit = none ∨ storageUnits v.memoryUnit = none) :
    (send v flagID args env s0).exitCode = 1 ∧
    (send v flagID args env s0).trace.filter isExecEvent = [] :=
  send_unit_invalid_core v flagID args env s0 hu

/-- Witness for C3: volumeUnit "xx" with the valid metric uptime
requested. -/
theorem invalid_unit_gate_witness :
    (storageUnits cfgBadVol.volumeUnit = none ∨
      storageUnits cfgBadVol.memoryUnit = none) ∧
    (send cfgBadVol "host1" ["uptime"] envNoCloud sessNew).exitCode = 1 ∧
    (send cfgBadVol "host1" ["uptime"] envNoCloud sessNew).trace.filter
      isExecEvent = [] :=
  ⟨Or.inl rfl,
   invalid_unit_gate cfgBadVol "host1" ["uptime"] envNoCloud sessNew
     (Or.inl rfl)⟩

/-- C10: the unit-validity gate is unconditional: an invalid volumeUnit
or memoryUnit aborts the run with exit code 1 and no handler
invocations even when none of the requested metrics is a memory- or
volume-size metric. -/
theorem invalid_unit_gate_unconditional (v : ViperConfig) (flagID : String)
    (args : List String) (env : Env) (s0 : SessionConfig)
    (hsize : ∀ m ∈ resolveMetrics v args, m ∉ sizeMetricIds)
    (hu : storageUnits v.volumeUnit = none ∨ storageUnits v.memoryUnit = none) :
    (send v flagID args env s0).exitCode = 1 ∧
    (send v flagID args env s0).trace.filter isExecEvent = [] :=
  send_unit_invalid_core v flagID args env s0 hu

/-- Witness for C10: volumeUnit "xx" with only the non-size metric
uptime requested. -/
theorem invalid_unit_gate_unconditional_witness :
    (∀ m ∈ resolveMetrics cfgBadVol ["uptime"], m ∉ sizeMetricIds) ∧
    (send cfgBadVol "host1" ["uptime"] envNoCloud sessNew).exitCode = 1 ∧
    (send cfgBadVol "host1" ["uptime"] envNoCloud sessNew).trace.filter
      isExecEvent = [] := by
  refine ⟨by decide, ?_⟩
  exact invalid_unit_gate_unconditional cfgBadVol "host1" ["uptime"]
    envNoCloud sessNew (by decide) (Or.inl rfl)

/-- C6: system id resolution tries the explicit id, then the cloud
instance-metadata id, then the local hostname, in that order; when the
id resolves to the empty string the run aborts with exit code 1 before
any metric handler is invoked. -/
theorem systemID_fallback (v : ViperConfig) (flagID : String)
    (args : List String) (env : Env) (s0 : SessionConfig) :
    (flagID ≠ "" → resolveSystemID flagID env = flagID) ∧
    (∀ i, env.instanceMetadata = some i → generateID env = i) ∧
    (env.instanceMetadata = none →
      ∀ h, env.hostname = some h → generateID env = h) ∧
    (env.instanceMetadata = none → env.hostname = none →
      generateID env = "") ∧
    (resolveSystemID flagID env = "" →
      (send v flagID args env s0).exitCode = 1 ∧
      (send v flagID args env s0).trace.filter isExecEvent = []) := by
  refine ⟨?_, ?_, ?_, ?_, ?_⟩
  · intro h
    simp [resolveSystemID, h]
  · intro i hi
    simp [generateID, hi]
  · intro hn h hh
    simp [generateID, hn, hh]
  · intro hn hh
    simp [generateID, hn, hh]
  · intro hid
    rw [send_shape_id v flagID args env s0 hid]
    exact ⟨rfl, rfl⟩

/-- Witness for C6: each fallback step at concrete environments, and
the fatal empty-id case. -/
theorem systemID_fallback_witness :
    resolveSystemID "host1" envMeta = "host1" ∧
    generateID envMeta = "i-0abc" ∧
    generateID envHost = "myhost" ∧
    generateID envNoCloud = "" ∧
    ((send cfgUptime "" ["uptime"] envNoCloud sessNew).exitCode = 1 ∧
     (send cfgUptime "" ["uptime"] envNoCloud sessNew).trace.filter
       isExecEvent = []) :=
  ⟨(systemID_fallback cfgUptime "host1" ["uptime"] envMeta sessNew).1
     (by decide),
   (systemID_fallback cfgUptime "" ["uptime"] envMeta sessNew).2.1
     "i-0abc" rfl,
   (systemID_fallback cfgUptime "" ["uptime"] envHost sessNew).2.2.1
     rfl "myhost" rfl,
   (systemID_fallback cfgUptime "" ["uptime"] envNoCloud sessNew).2.2.2.1
     rfl rfl,
   (systemID_fallback cfgUptime "" ["uptime"] envNoCloud sessNew).2.2.2.2
     (by decide)⟩

/-- C4: positional arguments replace the configured metric list
wholesale; with no positional arguments the configured list is used;
and the dispatched events come exactly from the deduplicated effective
list. -/
theorem positional_args_override (v : ViperConfig) (flagID : String)
    (args : List String) (env : Env) (s0 : SessionConfig) :
    (args ≠ [] → resolveMetrics v args = args) ∧
    (args = [] → resolveMetrics v args = v.metrics) ∧
    (resolveSystemID flagID env ≠ "" → resolveMetrics v args ≠ [] →
      storageUnits v.volumeUnit ≠ none → storageUnits v.memoryUnit ≠ none →
      (send v flagID args env s0).trace.filter (fun e => stageNum e == 5) =
        (resolveMetrics v args).dedup.map (evFor (configureSession v s0))) := by
  refine ⟨?_, ?_, ?_⟩
  · intro h
    unfold resolveMetrics
    rw [if_pos (List.length_pos.mpr h)]
  · intro h
    subst h
    rfl
  · intro hid hm hv hmu
    rw [send_run_trace v flagID args env s0 hid hm hv hmu]
    rw [List.filter_append, List.filter_append]
    have hmap : List.filter (fun e => stageNum e == 5)
        ((resolveMetrics v args).dedup.map (evFor (configureSession v s0))) =
        (resolveMetrics v args).dedup.map (evFor (configureSession v s0)) := by
      apply List.filter_eq_self.mpr
      intro e he
      obtain ⟨m, hmem, rfl⟩ := List.mem_map.mp he
      unfold evFor
      split_ifs <;> rfl
    have hpre : List.filter (fun e => stageNum e == 5)
        [Event.validateIdentity,
         Event.configureSessionEv (configureSession v s0),
         Event.resolveMetricsEv, Event.validateUnitsEv,
         Event.dedupeEv] = [] := rfl
    have hce : List.filter (fun e => stageNum e == 5)
        [Event.computeExit] = [] := rfl
    rw [hmap, hpre, hce]
    simp

/-- Witness for C4: configured ["uptime"] with positional ["mem-used"]
dispatches only mem-used. -/
theorem positional_args_override_witness :
    (["mem-used"] ≠ ([] : List String)) ∧
    resolveMetrics cfgUptime ["mem-used"] = ["mem-used"] ∧
    resolveMetrics cfgUptime [] = cfgUptime.metrics ∧
    (send cfgUptime "host1" ["mem-used"] envNoCloud sessNew).trace.filter
        (fun e => stageNum e == 5) =
      [Event.execHandler "mem-used" (configureSession cfgUptime sessNew)] := by
  refine ⟨by decide, ?_, ?_, ?_⟩
  · exact (positional_args_override cfgUptime "host1" ["mem-used"]
      envNoCloud sessNew).1 (by decide)
  · exact (positional_args_override cfgUptime "host1" []
      envNoCloud sessNew).2.1 rfl
  · rw [(positional_args_override cfgUptime "host1" ["mem-used"]
      envNoCloud sessNew).2.2 (by decide) (by decide) (by decide) (by decide)]
    rfl

theorem evFor_inj (s : SessionConfig) : Function.Injective (evFor s) := by
  intro a b hab
  unfold evFor at hab
  by_cases ha : (metricSpecs a).isSome <;>
    by_cases hb : (metricSpecs b).isSome <;>
    simp [ha, hb] at hab <;>
    exact hab

theorem send_args_dedup (v : ViperConfig) (flagID : String)
    (args : List String) (env : Env) (s0 : SessionConfig) :
    send v flagID args env s0 = send v flagID args.dedup env s0 := by
  rcases eq_or_ne args [] with ha | ha
  · subst ha
    rfl
  · have hne : args.dedup ≠ [] := fun h => ha ((List.dedup_eq_nil args).mp h)
    have h1 : resolveMetrics v args = args := by
      unfold resolveMetrics
      rw [if_pos (List.length_pos.mpr ha)]
    have h2 : resolveMetrics v args.dedup = args.dedup := by
      unfold resolveMetrics
      rw [if_pos (List.length_pos.mpr hne)]
    have hm1 : resolveMetrics v args ≠ [] := by rw [h1]; exact ha
    have hm2 : resolveMetrics v args.dedup ≠ [] := by rw [h2]; exact hne
    by_cases hid : resolveSystemID flagID env = ""
    · rw [send_shape_id v flagID args env s0 hid,
          send_shape_id v flagID args.dedup env s0 hid]
    · by_cases hv : storageUnits v.volumeUnit = none
      · rw [send_shape_badUnit v flagID args env s0 hid hm1 (Or.inl hv),
            send_shape_badUnit v flagID args.dedup env s0 hid hm2 (Or.inl hv)]
      · by_cases hmu : storageUnits v.memoryUnit = none
        · rw [send_shape_badUnit v flagID args env s0 hid hm1 (Or.inr hmu),
              send_shape_badUnit v flagID args.dedup env s0 hid hm2 (Or.inr hmu)]
        · rw [send_shape_run v flagID args env s0 hid hm1 hv hmu,
              send_shape_run v flagID args.dedup env s0 hid hm2 hv hmu,
              h1, h2, List.dedup_idem]

theorem send_count_exec_le_one (v : ViperConfig) (flagID : String)
    (args : List String) (env : Env) (s0 : SessionConfig)
    (m : String) (s : SessionConfig) :
    (send v flagID args env s0).trace.count (Event.execHandler m s) ≤ 1 := by
  by_cases hid : resolveSystemID flagID env = ""
  · rw [send_shape_id v flagID args env s0 hid]
    simp
  · by_cases hm : resolveMetrics v args = []
    · rw [send_shape_noMetrics v flagID args env s0 hid hm]
      simp
    · by_cases hv : storageUnits v.volumeUnit = none
      · rw [send_shape_badUnit v flagID args env s0 hid hm (Or.inl hv)]
        simp
      · by_cases hmu : storageUnits v.memoryUnit = none
        · rw [send_shape_badUnit v flagID args env s0 hid hm (Or.inr hmu)]
          simp
        · rw [send_run_trace v flagID args env s0 hid hm hv hmu]
          rw [List.count_append, List.count_append]
          have h1 : List.count (Event.execHandler m s)
              [Event.validateIdentity,
               Event.configureSessionEv (configureSession v s0),
               Event.resolveMetricsEv, Event.validateUnitsEv,
               Event.dedupeEv] = 0 := by
            apply List.count_eq_zero.mpr
            simp
          have h3 : List.count (Event.execHandler m s) [Event.computeExit] = 0 := by
            apply List.count_eq_zero.mpr
            simp
          have h2 : List.count (Event.execHandler m s)
              ((resolveMetrics v args).dedup.map
                (evFor (configureSession v s0))) ≤ 1 :=
            List.nodup_iff_count_le_one.mp
              ((List.nodup_dedup _).map (evFor_inj _)) _
          omega

/-- C5: dispatch executes each handler at most once per distinct metric
id, and dispatching a requested list is equivalent to dispatching its
deduplicated form. -/
theorem dedup_dispatch_equiv (v : ViperConfig) (flagID : String)
    (args : List String) (env : Env) (s0 : SessionConfig) :
    send v flagID args env s0 = send v flagID args.dedup env s0 ∧
    ∀ m s, (send v flagID args env s0).trace.count
      (Event.execHandler m s) ≤ 1 :=
  ⟨send_args_dedup v flagID args env s0,
   fun m s => send_count_exec_le_one v flagID args env s0 m s⟩

/-- C7: a handler error on one metric is non-fatal: every distinct
valid requested metric is still executed, and any handler failure on a
valid requested metric makes the exit code non-zero. -/
theorem handler_failure_isolated (v : ViperConfig) (flagID : String)
    (args : List String) (env : Env) (s0 : SessionConfig)
    (hid : resolveSystemID flagID env ≠ "")
    (hm : resolveMetrics v args ≠ [])
    (hv : storageUnits v.volumeUnit ≠ none)
    (hmu : storageUnits v.memoryUnit ≠ none) :
    (∀ m ∈ (resolveMetrics v args).dedup, (metricSpecs m).isSome →
        Event.execHandler m (configureSession v s0) ∈
          (send v flagID args env s0).trace) ∧
    ((∃ m ∈ resolveMetrics v args,
        (metricSpecs m).isSome ∧ (env.runResult m).isSome) →
      (send v flagID args env s0).exitCode = 1) := by
  constructor
  · intro m hmem hsome
    rw [send_run_trace v flagID args env s0 hid hm hv hmu]
    have hev : evFor (configureSession v s0) m =
        Event.execHandler m (configureSession v s0) := by
      unfold evFor
      rw [if_pos hsome]
    refine List.mem_append.mpr (Or.inl (List.mem_append.mpr (Or.inr ?_)))
    rw [← hev]
    exact List.mem_map_of_mem _ hmem
  · rintro ⟨m, hmem, hspec, hrun⟩
    rw [send_run_code v flagID args env s0 hid hm hv hmu]
    have hbad : (resolveMetrics v args).dedup.any (badMetric env) = true :=
      List.any_eq_true.mpr ⟨m, List.mem_dedup.mpr hmem, by
        unfold badMetric
        rw [hspec, hrun]
        rfl⟩
    rw [hbad]
    simp

/-- Witness for C7: uptime's handler fails, procs is still executed and
the exit code is 1. -/
theorem handler_failure_isolated_witness :
    Event.execHandler "procs" (configureSession cfgDefault sessNew) ∈
      (send cfgDefault "host1" ["uptime", "procs"] envFailUptime sessNew).trace ∧
    (send cfgDefault "host1" ["uptime", "procs"] envFailUptime sessNew).exitCode
      = 1 :=
  ⟨(handler_failure_isolated cfgDefault "host1" ["uptime", "procs"]
      envFailUptime sessNew (by decide) (by decide) (by decide) (by decide)).1
      "procs" (by decide) (by decide),
   (handler_failure_isolated cfgDefault "host1" ["uptime", "procs"]
      envFailUptime sessNew (by decide) (by decide) (by decide) (by decide)).2
      ⟨"uptime", by decide, by decide, by decide⟩⟩

theorem pairwise_le_of_all_eq {l : List Nat} {k : Nat}
    (h : ∀ a ∈ l, a = k) : List.Pairwise (· ≤ ·) l := by
  induction l with
  | nil => exact List.Pairwise.nil
  | cons a t ih =>
    refine List.Pairwise.cons ?_ (ih fun b hb => h b (List.mem_cons_of_mem a hb))
    intro b hb
    rw [h a (List.mem_cons_self a t), h b (List.mem_cons_of_mem a hb)]

theorem stageNum_evFor (s : SessionConfig) (m : String) :
    stageNum (evFor s m) = 5 := by
  unfold evFor
  split_ifs <;> rfl

theorem send_trace_sorted (v : ViperConfig) (flagID : String)
    (args : List String) (env : Env) (s0 : SessionConfig) :
    List.Sorted (· ≤ ·) ((send v flagID args env s0).trace.map stageNum) := by
  by_cases hid : resolveSystemID flagID env = ""
  · rw [send_shape_id v flagID args env s0 hid]
    show List.Sorted (· ≤ ·) [0]
    decide
  · by_cases hm : resolveMetrics v args = []
    · rw [send_shape_noMetrics v flagID args env s0 hid hm]
      show List.Sorted (· ≤ ·) [0, 1, 2]
      decide
    · by_cases hv : storageUnits v.volumeUnit = none
      · rw [send_shape_badUnit v flagID args env s0 hid hm (Or.inl hv)]
        show List.Sorted (· ≤ ·) [0, 1, 2, 3]
        decide
      · by_cases hmu : storageUnits v.memoryUnit = none
        · rw [send_shape_badUnit v flagID args env s0 hid hm (Or.inr hmu)]
          show List.Sorted (· ≤ ·) [0, 1, 2, 3]
          decide
        · rw [send_run_trace v flagID args env s0 hid hm hv hmu]
          rw [List.map_append, List.map_append, List.map_map]
          have hp : List.map stageNum
              [Event.validateIdentity,
               Event.configureSessionEv (configureSession v s0),
               Event.resolveMetricsEv, Event.validateUnitsEv,
               Event.dedupeEv] = [0, 1, 2, 3, 4] := rfl
          have hc : List.map stageNum [Event.computeExit] = [6] := rfl
          rw [hp, hc]
          have h5 : ∀ a ∈ (resolveMetrics v args).dedup.map
              (stageNum ∘ evFor (configureSession v s0)), a = 5 := by
            intro a ha
            obtain ⟨m, _, rfl⟩ := List.mem_map.mp ha
            exact stageNum_evFor _ m
          refine List.pairwise_append.mpr
            ⟨List.pairwise_append.mpr ⟨by decide, ?_, ?_⟩, by simp, ?_⟩
          · exact pairwise_le_of_all_eq h5
          · intro a ha b hb
            rw [h5 b hb]
            simp at ha
            omega
          · intro a ha b hb
            simp at hb
            subst hb
            rcases List.mem_append.mp ha with h | h
            · simp at h
              omega
            · rw [h5 a h]
              omega

theorem send_vi_mem (v : ViperConfig) (flagID : String) (args : List String)
    (env : Env) (s0 : SessionConfig) :
    Event.validateIdentity ∈ (send v flagID args env s0).trace := by
  by_cases hid : resolveSystemID flagID env = ""
  · rw [send_shape_id v flagID args env s0 hid]
    simp
  · by_cases hm : resolveMetrics v args = []
    · rw [send_shape_noMetrics v flagID args env s0 hid hm]
      simp
    · by_cases hv : storageUnits v.volumeUnit = none
      · rw [send_shape_badUnit v flagID args env s0 hid hm (Or.inl hv)]
        simp
      · by_cases hmu : storageUnits v.memoryUnit = none
        · rw [send_shape_badUnit v flagID args env s0 hid hm (Or.inr hmu)]
          simp
        · rw [send_run_trace v flagID args env s0 hid hm hv hmu]
          simp

theorem send_exec_session (v : ViperConfig) (flagID : String)
    (args : List String) (env : Env) (s0 : SessionConfig)
    (m : String) (s : SessionConfig)
    (hmem : Event.execHandler m s ∈ (send v flagID args env s0).trace) :
    s = configureSession v s0 ∧
    Event.configureSessionEv (configureSession v s0) ∈
      (send v flagID args env s0).trace := by
  by_cases hid : resolveSystemID flagID env = ""
  · rw [send_shape_id v flagID args env s0 hid] at hmem
    simp at hmem
  · by_cases hm : resolveMetrics v args = []
    · rw [send_shape_noMetrics v flagID args env s0 hid hm] at hmem
      simp at hmem
    · by_cases hv : storageUnits v.volumeUnit = none
      · rw [send_shape_badUnit v flagID args env s0 hid hm (Or.inl hv)] at hmem
        simp at hmem
      · by_cases hmu : storageUnits v.memoryUnit = none
        · rw [send_shape_badUnit v flagID args env s0 hid hm (Or.inr hmu)] at hmem
          simp at hmem
        · rw [send_run_trace v flagID args env s0 hid hm hv hmu] at hmem ⊢
          rcases List.mem_append.mp hmem with h | h
          · rcases List.mem_append.mp h with h | h
            · simp at h
            · obtain ⟨a, _, heq⟩ := List.mem_map.mp h
              unfold evFor at heq
              split_ifs at heq
              injection heq with h1 h2
              refine ⟨h2.symm, ?_⟩
              refine List.mem_append.mpr
                (Or.inl (List.mem_append.mpr (Or.inl ?_)))
              simp
          · simp at h

/-- C8: the session configuration occurs after system-id validation and
strictly before any handler runs, so all handlers observe the same
session state, and the run's stages occur in the fixed order
validate-identity, configure-session, resolve-metrics, validate-units,
dedupe, execute-each, compute-exit-code. -/
theorem stage_order (v : ViperConfig) (flagID : String) (args : List String)
    (env : Env) (s0 : SessionConfig) :
    List.Sorted (· ≤ ·) ((send v flagID args env s0).trace.map stageNum) ∧
    Event.validateIdentity ∈ (send v flagID args env s0).trace ∧
    ∀ m s, Event.execHandler m s ∈ (send v flagID args env s0).trace →
      s = configureSession v s0 ∧
      Event.configureSessionEv (configureSession v s0) ∈
        (send v flagID args env s0).trace :=
  ⟨send_trace_sorted v flagID args env s0,
   send_vi_mem v flagID args env s0,
   fun m s hmem => send_exec_session v flagID args env s0 m s hmem⟩

/-- Witness for C8: in a run dispatching uptime, the handler observes
the configured session and the configure-session event is in the
trace. -/
theorem stage_order_witness :
    configureSession cfgUptime sessNew = configureSession cfgUptime sessNew ∧
    Event.configureSessionEv (configureSession cfgUptime sessNew) ∈
      (send cfgUptime "host1" ["uptime"] envNoCloud sessNew).trace :=
  (stage_order cfgUptime "host1" ["uptime"] envNoCloud sessNew).2.2 "uptime"
    (configureSession cfgUptime sessNew) (by decide)

/-- C1: the claim fails on the code.  With the unknown metric id
"bogus" requested next to the valid metric uptime, and every handler
succeeding, the dispatch loop reports the invalid id and still runs
uptime, but leaves `code` untouched on the invalid-metric path
(send.go:175-177), so the process exits 0 where the claim requires a
non-zero exit code. -/
theorem invalid_metric_exit_zero :
    (send cfgDefault "host1" ["bogus", "uptime"] envNoCloud sessNew).exitCode
        = 0 ∧
    Event.invalidMetric "bogus" ∈
      (send cfgDefault "host1" ["bogus", "uptime"] envNoCloud sessNew).trace ∧
    Event.execHandler "uptime" (configureSession cfgDefault sessNew) ∈
      (send cfgDefault "host1" ["bogus", "uptime"] envNoCloud sessNew).trace := by
  refine ⟨?_, ?_, ?_⟩ <;> decide

/-- Modelled from the spec: the percentage metric handlers (memUtil,
memAvail and their volume counterparts) are registered in
src/cmd/send.go:61-80 but their function bodies are not under src/.
Spec section 4.2: percentage handlers compute used/total*100 or
free/total*100 with total=0 treated as an error (division-by-zero
guarded, the handler reports failure rather than NaN/Inf).  Byte
counts are naturals; the percentage is an exact rational. -/
def pctOfTotal (part total : Nat) : Except String Rat :=
  if total = 0 then Except.error "total is zero"
  else Except.ok ((part : Rat) / (total : Rat) * 100)

/-- Modelled from the spec: mem-util computes used/total*100. -/
def memUtil (used total : Nat) : Except String Rat :=
  pctOfTotal used total

/-- Modelled from the spec: mem-avail computes free/total*100. -/
def memAvail (free total : Nat) : Except String Rat :=
  pctOfTotal free total

/-- C9: when the total quantity is 0, the percentage handlers return an
error instead of dividing; on a non-zero total, mem-util returns the
exact rational used/total*100 (no NaN or Inf exists in this exact
arithmetic). -/
theorem percentage_zero_total_guard (p t : Nat) :
    (t = 0 →
      memUtil p t = Except.error "total is zero" ∧
      memAvail p t = Except.error "total is zero") ∧
    (t ≠ 0 → memUtil p t = Except.ok ((p : Rat) / (t : Rat) * 100)) := by
  constructor
  · intro h
    subst h
    exact ⟨rfl, rfl⟩
  · intro h
    simp [memUtil, pctOfTotal, h]

/-- Witness for C9 at total 0 and at a non-zero total. -/
theorem percentage_zero_total_guard_witness :
    memUtil 5 0 = Except.error "total is zero" ∧
    memUtil 1 2 = Except.ok ((1 : Rat) / (2 : Rat) * 100) :=
  ⟨((percentage_zero_total_guard 5 0).1 rfl).1,
   (percentage_zero_total_guard 1 2).2 (by decide)⟩

end Os2cw
